import Mathlib

/-!
Shallow embedding of the HappyMe health-insights engine (src/script.js):
the metrics engine `calculateHealthMetrics`, the BMI classifier
`getBMICategory`, the weight-projection loop of `renderCharts`, and the
diet recommendation of `renderDietPlan`, together with theorems settling
the specification claims about them.

Numbers are modelled as rationals; the one place where JavaScript's
division by zero matters (the BMI quotient) is modelled by the extended
type `JNum`, whose comparisons follow IEEE semantics (`inf` and `nan`
compare `false` under `<`, `negInf` compares `true`).
-/

namespace HappyMe

/-- Result of a JavaScript floating-point division: a finite rational, or
`Infinity` / `-Infinity` / `NaN` when the divisor is zero. -/
inductive JNum where
  | fin : ℚ → JNum
  | inf : JNum
  | negInf : JNum
  | nan : JNum
deriving DecidableEq, Repr

/-- JavaScript division `a / b`: finite quotient when `b ≠ 0`, otherwise
`Infinity`, `-Infinity` or `NaN` according to the sign of `a`. -/
def jdiv (a b : ℚ) : JNum :=
  if b = 0 then
    if 0 < a then JNum.inf else if a < 0 then JNum.negInf else JNum.nan
  else JNum.fin (a / b)

/-- JavaScript comparison `x < q` for an extended number against a finite
bound: `Infinity` and `NaN` yield `false`, `-Infinity` yields `true`. -/
def jlt (x : JNum) (q : ℚ) : Bool :=
  match x with
  | JNum.fin a => decide (a < q)
  | JNum.inf => false
  | JNum.negInf => true
  | JNum.nan => false

/-- JavaScript `Math.round`: round half towards positive infinity. -/
def jsRound (q : ℚ) : ℤ := (q + 1/2).floor

/-- JavaScript `x.toFixed(1)` on a finite value, as the rational it
denotes: round to one decimal place, ties towards positive infinity. -/
def toFixed1q (q : ℚ) : ℚ := (jsRound (10 * q) : ℚ) / 10

/-- JavaScript `x.toFixed(1)` on an extended number: non-finite values
format as themselves. -/
def jToFixed1 : JNum → JNum
  | JNum.fin q => JNum.fin (toFixed1q q)
  | x => x

/-- Input record destructured by `calculateHealthMetrics`
(src/script.js line 36): `{ age, gender, height, weight, activity, goal }`. -/
structure HealthData where
  age : ℚ
  gender : String
  height : ℚ
  weight : ℚ
  activity : ℚ
  goal : String
deriving DecidableEq, Repr

/-- Record returned by `calculateHealthMetrics` (src/script.js lines
53-57): `bmi` after `toFixed(1)`, `calories` after `Math.round`, and the
category string. -/
structure HealthResult where
  bmi : JNum
  calories : ℤ
  category : String
deriving DecidableEq, Repr

/-- Embedding of `getBMICategory` (src/script.js lines 60-65). -/
def getBMICategory (bmi : JNum) : String :=
  if jlt bmi 18.5 then "underweight"
  else if jlt bmi 25 then "normal"
  else if jlt bmi 30 then "overweight"
  else "obese"

/-- Embedding of the BMR computation of `calculateHealthMetrics`
(src/script.js lines 43-44): Mifflin-St Jeor base, then `+5` when gender
is exactly the string `"male"`, else `-161`. -/
def bmrOf (d : HealthData) : ℚ :=
  let bmr := 10 * d.weight + 6.25 * d.height - 5 * d.age
  if d.gender = "male" then bmr + 5 else bmr - 161

/-- Embedding of the TDEE computation (src/script.js line 47):
`bmr * parseFloat(activity)`. -/
def tdeeOf (d : HealthData) : ℚ := bmrOf d * d.activity

/-- Embedding of `calculateHealthMetrics` (src/script.js lines 35-58). -/
def calculateHealthMetrics (d : HealthData) : HealthResult :=
  let heightM := d.height / 100
  let bmi := jdiv d.weight (heightM * heightM)
  let calories0 := tdeeOf d
  let calories1 := if d.goal = "lose" then calories0 - 500 else calories0
  let calories2 := if d.goal = "gain" then calories1 + 500 else calories1
  { bmi := jToFixed1 bmi
    calories := jsRound calories2
    category := getBMICategory bmi }

/-- Embedding of the per-period weight change of `renderCharts`
(src/script.js line 183). -/
def weightChange (goal : String) : ℚ :=
  if goal = "lose" then -0.5 else if goal = "gain" then 0.5 else 0

/-- Embedding of the projection loop of `renderCharts` (src/script.js
lines 185-188): each iteration first adds the change, then pushes the
`toFixed(1)` value. -/
def projectLoop : Nat → ℚ → ℚ → List ℚ
  | 0, _, _ => []
  | n + 1, w, ch => toFixed1q (w + ch) :: projectLoop n (w + ch) ch

/-- Embedding of the weight projection of `renderCharts` (src/script.js
lines 180-188): four periods, delta chosen by goal. -/
def projectWeight (w : ℚ) (goal : String) : List ℚ :=
  projectLoop 4 w (weightChange goal)

/-- Embedding of the chart labels of `renderCharts` (src/script.js
line 181). -/
def chartLabels : List String := ["Week 1", "Week 2", "Week 3", "Week 4"]

/-- Labelled projection points as the chart receives them: labels paired
with projected weights (src/script.js lines 180-201). -/
def weightProjectionPoints (w : ℚ) (goal : String) : List (String × ℚ) :=
  chartLabels.zip (projectWeight w goal)

/-- Embedding of the diet catalog lookup `HEALTH_DATA.diets[pref]`
(src/script.js lines 17-21, 124): `none` models the `undefined` that an
unrecognized key yields, on which `items.forEach` then throws. -/
def diets (pref : String) : Option (List String) :=
  if pref = "non-veg" then
    some ["Grilled Salmon with Asparagus", "Chicken Quinoa Bowl",
          "Greek Yogurt & Berries"]
  else if pref = "veg" then
    some ["Lentil Curry with Brown Rice", "Roasted Chickpea Salad",
          "Cottage Cheese Stir-fry"]
  else if pref = "vegan" then
    some ["Tofu Scramble", "Sweet Potato & Black Bean Tacos",
          "Tempeh Buddha Bowl"]
  else none

/-- Diet plan produced by `renderDietPlan`: the meal list and the weekly
target-change text fragment. -/
structure DietPlan where
  meals : List String
  targetChange : String
deriving DecidableEq, Repr

/-- Embedding of `renderDietPlan` (src/script.js lines 122-148): looks
the preference up in the catalog — failing (TypeError on `undefined`)
when it is unrecognized — and appends the weekly target change, `"0kg"`
for goal `"maintain"` and `"0.5kg"` otherwise. -/
def renderDietPlan (pref goal : String) : Option DietPlan :=
  (diets pref).map fun items =>
    { meals := items
      targetChange := if goal = "maintain" then "0kg" else "0.5kg" }

/-- Modelled from the spec: the Mifflin-St Jeor BMR formula as §4.1
states it, `10×weightKg + 6.25×heightCm − 5×age` plus `5` for male and
`−161` otherwise; compared against the code's `bmrOf`. -/
def bmrSpec (d : HealthData) : ℚ :=
  10 * d.weight + 6.25 * d.height - 5 * d.age +
    (if d.gender = "male" then 5 else -161)

/-- Bridge between the computable `Rat.floor` and Mathlib's `Int.floor`. -/
theorem ratFloor_eq (q : ℚ) : Rat.floor q = ⌊q⌋ := by
  rw [Rat.floor_def', Rat.floor_def]

/-- Rounding commutes with shifting by an integer. -/
theorem jsRound_add_int (q : ℚ) (n : ℤ) : jsRound (q + n) = jsRound q + n := by
  unfold jsRound
  rw [ratFloor_eq, ratFloor_eq, show q + n + 1/2 = q + 1/2 + n by ring,
    Int.floor_add_int]

/-- Code BMR agrees with the spec's Mifflin-St Jeor formula. -/
theorem bmrOf_eq_bmrSpec (d : HealthData) : bmrOf d = bmrSpec d := by
  unfold bmrOf bmrSpec
  split_ifs <;> ring

/-- Rounding commutes with subtracting 500. -/
theorem jsRound_sub_500 (q : ℚ) : jsRound (q - 500) = jsRound q - 500 := by
  have h := jsRound_add_int q (-500)
  have h2 : q + ((-500 : ℤ) : ℚ) = q - 500 := by push_cast; ring
  rw [h2] at h
  omega

/-- Rounding commutes with adding 500. -/
theorem jsRound_add_500 (q : ℚ) : jsRound (q + 500) = jsRound q + 500 := by
  have h := jsRound_add_int q 500
  have h2 : q + ((500 : ℤ) : ℚ) = q + 500 := by push_cast; ring
  rw [h2] at h
  omega

/-- C3: `getBMICategory` is total on finite BMI values and its four
ranges are half-open and pairwise disjoint — underweight below 18.5,
normal on [18.5, 25), overweight on [25, 30), obese from 30 up; at the
boundaries, 18.5 is normal, 25 is overweight and 30 is obese. -/
theorem bmiCategory_ranges :
    (∀ q : ℚ,
      (getBMICategory (JNum.fin q) = "underweight" ↔ q < 18.5)
      ∧ (getBMICategory (JNum.fin q) = "normal" ↔ 18.5 ≤ q ∧ q < 25)
      ∧ (getBMICategory (JNum.fin q) = "overweight" ↔ 25 ≤ q ∧ q < 30)
      ∧ (getBMICategory (JNum.fin q) = "obese" ↔ 30 ≤ q))
    ∧ getBMICategory (JNum.fin 18.5) = "normal"
    ∧ getBMICategory (JNum.fin 25) = "overweight"
    ∧ getBMICategory (JNum.fin 30) = "obese" := by
  refine ⟨fun q => ?_, by norm_num [getBMICategory, jlt],
    by norm_num [getBMICategory, jlt], by norm_num [getBMICategory, jlt]⟩
  simp only [getBMICategory, jlt, decide_eq_true_eq]
  split_ifs with h1 h2 h3 <;>
    refine ⟨?_, ?_, ?_, ?_⟩ <;> simp_all <;>
    first
    | linarith
    | (intro h; linarith)

/-- C5: the weight projection emits exactly four points, accumulating
the per-goal delta each period with the first emitted point already one
period in; concretely, 80 kg with goal lose yields
[79.5, 79.0, 78.5, 78.0] and goal maintain keeps 80.0 four times. -/
theorem projectWeight_spec :
    (∀ (w : ℚ) (goal : String),
      projectWeight w goal
        = [toFixed1q (w + weightChange goal),
           toFixed1q (w + 2 * weightChange goal),
           toFixed1q (w + 3 * weightChange goal),
           toFixed1q (w + 4 * weightChange goal)])
    ∧ weightChange "lose" = -0.5
    ∧ weightChange "gain" = 0.5
    ∧ weightChange "maintain" = 0
    ∧ projectWeight 80 "lose" = [79.5, 79, 78.5, 78]
    ∧ projectWeight 80 "maintain" = [80, 80, 80, 80] := by
  refine ⟨fun w goal => ?_, by simp [weightChange],
    by simp [weightChange], by simp [weightChange], ?_, ?_⟩
  · simp only [projectWeight, projectLoop, List.cons.injEq, and_true]
    refine ⟨by ring_nf, ?_, ?_, ?_⟩ <;> (congr 1; ring)
  · simp [projectWeight, projectLoop, weightChange, toFixed1q, jsRound]
    norm_num [ratFloor_eq, Int.floor_eq_iff]
  · simp [projectWeight, projectLoop, weightChange, toFixed1q, jsRound]
    norm_num [ratFloor_eq, Int.floor_eq_iff]

/-- C6 counterexample: the projection labels the code hands to the chart
are not "Period 1".."Period 4" — already the first label differs. -/
theorem projection_labels_not_period :
    (weightProjectionPoints 80 "lose").map Prod.fst
      ≠ ["Period 1", "Period 2", "Period 3", "Period 4"] := by
  intro h
  have h1 : "Week 1" = "Period 1" := congrArg (List.headD · "") h
  exact absurd h1 (by decide)

/-- C6 (amended): for every starting weight and goal, the labels of the
projection's ordered sequence are "Week 1" through "Week 4", in order. -/
theorem projection_labels_week :
    ∀ (w : ℚ) (goal : String),
      (weightProjectionPoints w goal).map Prod.fst
        = ["Week 1", "Week 2", "Week 3", "Week 4"] :=
  fun _ _ => rfl

/-- C7: for every dietPreference outside the three recognized values and
any goal, the diet recommendation fails and yields no DietPlan. -/
theorem renderDietPlan_unknown_pref :
    ∀ pref goal : String,
      pref ≠ "non-veg" → pref ≠ "veg" → pref ≠ "vegan" →
      renderDietPlan pref goal = none := by
  intro pref goal h1 h2 h3
  simp [renderDietPlan, diets, h1, h2, h3]

/-- C7 witness: the unrecognized preference "invalid-pref" yields no
DietPlan for goal "gain". -/
theorem renderDietPlan_unknown_pref_witness :
    renderDietPlan "invalid-pref" "gain" = none :=
  renderDietPlan_unknown_pref "invalid-pref" "gain"
    (by decide) (by decide) (by decide)

/-- C8: each recognized preference returns exactly its 3-entry static
catalog, unchanged regardless of goal, with weekly target change "0kg"
for goal maintain and magnitude "0.5kg" otherwise. -/
theorem renderDietPlan_catalog :
    ∀ goal : String,
      renderDietPlan "non-veg" goal
          = some ⟨["Grilled Salmon with Asparagus", "Chicken Quinoa Bowl",
                   "Greek Yogurt & Berries"],
                  if goal = "maintain" then "0kg" else "0.5kg"⟩
      ∧ renderDietPlan "veg" goal
          = some ⟨["Lentil Curry with Brown Rice", "Roasted Chickpea Salad",
                   "Cottage Cheese Stir-fry"],
                  if goal = "maintain" then "0kg" else "0.5kg"⟩
      ∧ renderDietPlan "vegan" goal
          = some ⟨["Tofu Scramble", "Sweet Potato & Black Bean Tacos",
                   "Tempeh Buddha Bowl"],
                  if goal = "maintain" then "0kg" else "0.5kg"⟩ := by
  intro goal
  refine ⟨?_, ?_, ?_⟩ <;> simp [renderDietPlan, diets]

/-- C1 counterexample: at the invalid input heightCm = 0 the engine
raises nothing — it returns a full HealthResult (BMI Infinity, 1015
calories, category "obese"), so invalid input does not fail with
InvalidInputError. -/
theorem invalid_input_returns_result :
    calculateHealthMetrics ⟨30, "male", 0, 80, 1.55, "maintain"⟩
      = ⟨JNum.inf, 1015, "obese"⟩ := by
  simp [calculateHealthMetrics, tdeeOf, bmrOf, jdiv, jToFixed1, toFixed1q,
    jsRound, jlt, getBMICategory]
  norm_num [ratFloor_eq, Int.floor_eq_iff]

/-- C1 (amended): for every input whose heightCm, weightKg or age
violates the stated constraints, the engine raises no error at all — it
still produces a HealthResult, whose category is one of the four BMI
categories; the code performs no input validation. -/
theorem invalid_input_no_error :
    ∀ d : HealthData,
      d.height ≤ 0 ∨ d.weight ≤ 0 ∨ d.age ≤ 0 ∨ (150 : ℚ) ≤ d.age →
      (calculateHealthMetrics d).category
        ∈ (["underweight", "normal", "overweight", "obese"] : List String) := by
  intro d _
  simp only [calculateHealthMetrics]
  unfold getBMICategory
  split_ifs <;> simp

/-- C1 witness: the amended claim instantiated at heightCm = 0. -/
theorem invalid_input_no_error_witness :
    (calculateHealthMetrics ⟨0, "male", 0, -5, 1.2, "maintain"⟩).category
      ∈ (["underweight", "normal", "overweight", "obese"] : List String) :=
  invalid_input_no_error ⟨0, "male", 0, -5, 1.2, "maintain"⟩
    (Or.inl (le_refl 0))

/-- C2: the engine computes BMI as weight over squared height in metres
(then formatted to one decimal), BMR by the Mifflin-St Jeor formula with
the +5 male and −161 otherwise offsets, TDEE as BMR times the activity
factor, and on the spec's example input the calorie target is 2759. -/
theorem metrics_formulas :
    (∀ d : HealthData, bmrOf d = bmrSpec d)
    ∧ (∀ d : HealthData, tdeeOf d = bmrSpec d * d.activity)
    ∧ (∀ d : HealthData, d.height ≠ 0 →
        (calculateHealthMetrics d).bmi
          = JNum.fin (toFixed1q (d.weight / (d.height / 100 * (d.height / 100)))))
    ∧ (∀ d : HealthData, d.goal = "maintain" →
        (calculateHealthMetrics d).calories = jsRound (bmrSpec d * d.activity))
    ∧ calculateHealthMetrics ⟨30, "male", 180, 80, 1.55, "maintain"⟩
        = ⟨JNum.fin 24.7, 2759, "normal"⟩ := by
  refine ⟨bmrOf_eq_bmrSpec, fun d => ?_, fun d h => ?_, fun d h => ?_, ?_⟩
  · rw [tdeeOf, bmrOf_eq_bmrSpec]
  · have hne : d.height / 100 * (d.height / 100) ≠ 0 :=
      mul_self_ne_zero.mpr (div_ne_zero h (by norm_num))
    simp only [calculateHealthMetrics, jdiv, if_neg hne, jToFixed1]
  · simp only [calculateHealthMetrics, h]
    simp only [show (("maintain" : String) = "lose") = False by simp,
      show (("maintain" : String) = "gain") = False by simp, if_false]
    rw [tdeeOf, bmrOf_eq_bmrSpec]
  · simp [calculateHealthMetrics, tdeeOf, bmrOf, jdiv, jToFixed1, toFixed1q,
      jsRound, jlt, getBMICategory]
    norm_num [ratFloor_eq, Int.floor_eq_iff]

/-- C2 witness: the formula parts instantiated at the spec's example
input, hypotheses discharged concretely. -/
theorem metrics_formulas_witness :
    (calculateHealthMetrics ⟨30, "male", 180, 80, 1.55, "maintain"⟩).bmi
        = JNum.fin (toFixed1q ((80 : ℚ) / (180 / 100 * (180 / 100))))
    ∧ (calculateHealthMetrics ⟨30, "male", 180, 80, 1.55, "maintain"⟩).calories
        = jsRound (bmrSpec ⟨30, "male", 180, 80, 1.55, "maintain"⟩ * 1.55) :=
  ⟨metrics_formulas.2.2.1 ⟨30, "male", 180, 80, 1.55, "maintain"⟩ (by norm_num),
   metrics_formulas.2.2.2.1 ⟨30, "male", 180, 80, 1.55, "maintain"⟩ rfl⟩

/-- C4: the calorie target is the rounded TDEE shifted by −500 for goal
lose, +500 for goal gain, and unchanged for maintain (the code shifts
before rounding, which agrees because rounding commutes with integer
shifts); on the example input the targets are 2259 and 3259. -/
theorem calorieTarget_goal_adjustment :
    (∀ d : HealthData,
      (calculateHealthMetrics { d with goal := "lose" }).calories
          = jsRound (tdeeOf d) - 500
      ∧ (calculateHealthMetrics { d with goal := "gain" }).calories
          = jsRound (tdeeOf d) + 500
      ∧ (calculateHealthMetrics { d with goal := "maintain" }).calories
          = jsRound (tdeeOf d))
    ∧ (calculateHealthMetrics ⟨30, "male", 180, 80, 1.55, "lose"⟩).calories
        = 2259
    ∧ (calculateHealthMetrics ⟨30, "male", 180, 80, 1.55, "gain"⟩).calories
        = 3259 := by
  refine ⟨fun d => ⟨?_, ?_, ?_⟩, ?_, ?_⟩
  · simp only [calculateHealthMetrics,
      show (("lose" : String) = "lose") = True by simp,
      show (("lose" : String) = "gain") = False by simp, if_true, if_false]
    exact jsRound_sub_500 (tdeeOf d)
  · simp only [calculateHealthMetrics,
      show (("gain" : String) = "lose") = False by simp,
      show (("gain" : String) = "gain") = True by simp, if_true, if_false]
    exact jsRound_add_500 (tdeeOf d)
  · simp only [calculateHealthMetrics,
      show (("maintain" : String) = "lose") = False by simp,
      show (("maintain" : String) = "gain") = False by simp, if_false]
    rfl
  · simp [calculateHealthMetrics, tdeeOf, bmrOf, jsRound]
    norm_num [ratFloor_eq, Int.floor_eq_iff]
  · simp [calculateHealthMetrics, tdeeOf, bmrOf, jsRound]
    norm_num [ratFloor_eq, Int.floor_eq_iff]

/-- C9: every gender other than the exact string "male" receives the
−161 BMR offset, and every goal other than "lose" and "gain" leaves the
calorie target unadjusted and gives projection delta 0 — no enumeration
value is rejected. -/
theorem unrecognized_enum_defaults :
    (∀ d : HealthData, d.gender ≠ "male" →
        bmrOf d = 10 * d.weight + 6.25 * d.height - 5 * d.age - 161)
    ∧ (∀ d : HealthData, d.goal ≠ "lose" → d.goal ≠ "gain" →
        (calculateHealthMetrics d).calories = jsRound (tdeeOf d))
    ∧ (∀ goal : String, goal ≠ "lose" → goal ≠ "gain" →
        weightChange goal = 0) := by
  refine ⟨fun d h => ?_, fun d h1 h2 => ?_, fun goal h1 h2 => ?_⟩
  · simp [bmrOf, h]
  · simp [calculateHealthMetrics, h1, h2]
  · simp [weightChange, h1, h2]

/-- C9 witness: instantiated at the out-of-enumeration gender "other"
and goal "keep". -/
theorem unrecognized_enum_defaults_witness :
    bmrOf ⟨30, "other", 180, 80, 1.55, "keep"⟩
        = 10 * 80 + 6.25 * 180 - 5 * 30 - 161
    ∧ (calculateHealthMetrics ⟨30, "other", 180, 80, 1.55, "keep"⟩).calories
        = jsRound (tdeeOf ⟨30, "other", 180, 80, 1.55, "keep"⟩)
    ∧ weightChange "keep" = 0 :=
  ⟨unrecognized_enum_defaults.1 ⟨30, "other", 180, 80, 1.55, "keep"⟩
      (by decide),
   unrecognized_enum_defaults.2.1 ⟨30, "other", 180, 80, 1.55, "keep"⟩
      (by decide) (by decide),
   unrecognized_enum_defaults.2.2 "keep" (by decide) (by decide)⟩

/-- C10: `calculateHealthMetrics` is total and performs no validation —
with heightCm 0 and positive weight the BMI is Infinity and the category
"obese", and every input whatsoever yields a HealthResult, never an
error. -/
theorem engine_total_no_validation :
    (∀ d : HealthData, d.height = 0 → 0 < d.weight →
        (calculateHealthMetrics d).bmi = JNum.inf
        ∧ (calculateHealthMetrics d).category = "obese")
    ∧ (∀ d : HealthData, ∃ r : HealthResult, calculateHealthMetrics d = r) := by
  refine ⟨fun d h hw => ?_, fun d => ⟨_, rfl⟩⟩
  have hb : jdiv d.weight (d.height / 100 * (d.height / 100)) = JNum.inf := by
    simp [jdiv, h, hw]
  constructor
  · simp only [calculateHealthMetrics, hb, jToFixed1]
  · simp only [calculateHealthMetrics, hb]
    simp [getBMICategory, jlt]

/-- C10 witness: the Infinity case instantiated at heightCm = 0 with
weight 80. -/
theorem engine_total_no_validation_witness :
    (calculateHealthMetrics ⟨30, "male", 0, 80, 1.55, "maintain"⟩).bmi
        = JNum.inf
    ∧ (calculateHealthMetrics ⟨30, "male", 0, 80, 1.55, "maintain"⟩).category
        = "obese" :=
  engine_total_no_validation.1 ⟨30, "male", 0, 80, 1.55, "maintain"⟩
    rfl (by norm_num)

end HappyMe
